import Mathlib

/-!
Shallow embedding of the analytical pipeline of `src/app.py`
(forensic credit assessment tool).

Numeric line items are modelled as exact rationals (ℚ).  The pandas
idiom `series.replace(0, 1)` is modelled by `replace0`, which replaces
an exact zero by one.  `pct_change().fillna(0)` is modelled by
`pct_change`: the first row of the frame (no predecessor) gets 0, as
`fillna(0)` turns the leading NaN into 0; a later row gets
`(x - p) / p` against the immediately preceding row of the whole frame
(the source applies `pct_change` to the full dataframe, with no grouping
by company).
-/

/-- One input row of the dataframe: the canonical field set of the
master dataset / manual-entry form.  Absent fields default to 0, as the
loader fills missing columns with 0. -/
structure FinancialRecord where
  Company : String := ""
  Year : Int := 0
  Revenue : ℚ := 0
  EBITDA : ℚ := 0
  EBIT : ℚ := 0
  PAT : ℚ := 0
  Interest : ℚ := 0
  TotalAssets : ℚ := 0
  TotalDebt : ℚ := 0
  Equity : ℚ := 0
  CurrentAssets : ℚ := 0
  CurrentLiabilities : ℚ := 0
  Inventory : ℚ := 0
  Receivables : ℚ := 0
  Cash : ℚ := 0
  CFO : ℚ := 0
  CFI : ℚ := 0
  CFF : ℚ := 0
  Capex : ℚ := 0
  deriving DecidableEq

/-- Models `series.replace(0, 1)` applied to a divisor: an exact zero
becomes 1, every other value is kept. -/
def replace0 (x : ℚ) : ℚ := if x = 0 then 1 else x

/-- Models `series.pct_change().fillna(0)` at one row: 0 when there is
no preceding row in the frame (NaN filled with 0), otherwise the change
relative to the immediately preceding row of the frame. -/
def pct_change (prev : Option ℚ) (x : ℚ) : ℚ :=
  match prev with
  | none => 0
  | some p => (x - p) / p

/-- Life-cycle stage from the sign pattern of (CFO, CFI, CFF);
first match wins, mirroring `get_stage` in `calculate_metrics`. -/
def get_stage (cfo cfi cff : ℚ) : String :=
  if cfo < 0 ∧ cfi < 0 ∧ cff > 0 then "Introduction"
  else if cfo > 0 ∧ cfi < 0 ∧ cff > 0 then "Growth"
  else if cfo > 0 ∧ cfi < 0 ∧ cff < 0 then "Mature"
  else if cfo < 0 then "Decline/Stress"
  else "Transition"

/-- The running `score` local of `get_score` just before the final
`max(0, score)` floor: 100 minus the ordered deductions. -/
def raw_score (z cfo_to_pat debt_equity current_ratio icr : ℚ) (beneish : Int) : ℚ :=
  let score : ℚ := 100
  let score := if z < 1.23 then score - 25 else if z < 2.9 then score - 10 else score
  let score := if cfo_to_pat < 0.8 then score - 15 else score
  let score := if debt_equity > 2.0 then score - 15 else score
  let score := if current_ratio < 1.0 then score - 10 else score
  let score := if icr < 1.5 then score - 10 else score
  let score := if beneish = 1 then score - 10 else score
  score

/-- Composite credit score, mirroring `get_score` in
`calculate_metrics`: 100, ordered deductions, floored at 0. -/
def get_score (z cfo_to_pat debt_equity current_ratio icr : ℚ) (beneish : Int) : ℚ :=
  let score : ℚ := 100
  let score := if z < 1.23 then score - 25 else if z < 2.9 then score - 10 else score
  let score := if cfo_to_pat < 0.8 then score - 15 else score
  let score := if debt_equity > 2.0 then score - 15 else score
  let score := if current_ratio < 1.0 then score - 10 else score
  let score := if icr < 1.5 then score - 10 else score
  let score := if beneish = 1 then score - 10 else score
  max 0 score

/-- The derived columns `calculate_metrics` adds to one row. -/
structure Metrics where
  Current_Ratio : ℚ
  OCF_Ratio : ℚ
  NPM : ℚ
  ROA : ℚ
  ROE : ℚ
  ROCE : ℚ
  Debtor_Days : ℚ
  Debt_Equity : ℚ
  ICR : ℚ
  Dupont_NPM : ℚ
  Asset_Turnover : ℚ
  Fin_Leverage : ℚ
  CFO_to_PAT : ℚ
  Accruals_Ratio : ℚ
  Sales_Growth : ℚ
  Rec_Growth : ℚ
  Beneish_Flag_DSRI : Int
  Z_Score : ℚ
  CF_Debt_Cov : ℚ
  Life_Cycle : String
  Credit_Score : ℚ
  deriving DecidableEq

/-- All derived columns for one row, given the immediately preceding
row of the frame (`none` for the first row), mirroring the column
assignments of `calculate_metrics` in order. -/
def rowMetrics (prev : Option FinancialRecord) (r : FinancialRecord) : Metrics :=
  let current_ratio := r.CurrentAssets / replace0 r.CurrentLiabilities
  let ocf_ratio := r.CFO / replace0 r.CurrentLiabilities
  let npm := (r.PAT / replace0 r.Revenue) * 100
  let roa := (r.PAT / replace0 r.TotalAssets) * 100
  let roe := (r.PAT / replace0 r.Equity) * 100
  let roce := (r.EBIT / replace0 (r.TotalDebt + r.Equity)) * 100
  let debtor_days := (r.Receivables / replace0 r.Revenue) * 365
  let debt_equity := r.TotalDebt / replace0 r.Equity
  let icr := r.EBIT / replace0 r.Interest
  let dupont_npm := r.PAT / replace0 r.Revenue
  let asset_turnover := r.Revenue / replace0 r.TotalAssets
  let fin_leverage := r.TotalAssets / replace0 r.Equity
  let cfo_to_pat := r.CFO / replace0 r.PAT
  let accruals := (r.PAT - r.CFO) / replace0 r.TotalAssets
  let sales_growth := pct_change (prev.map (fun p => p.Revenue)) r.Revenue
  let rec_growth := pct_change (prev.map (fun p => p.Receivables)) r.Receivables
  let beneish : Int := if rec_growth > sales_growth * 1.3 then 1 else 0
  let x1 := (r.CurrentAssets - r.CurrentLiabilities) / replace0 r.TotalAssets
  let x2 := r.PAT / replace0 r.TotalAssets
  let x3 := r.EBIT / replace0 r.TotalAssets
  let x4 := r.Equity / replace0 r.TotalDebt
  let z := 3.25 + 6.56 * x1 + 3.26 * x2 + 6.72 * x3 + 1.05 * x4
  let cf_debt_cov := r.CFO / replace0 r.TotalDebt
  { Current_Ratio := current_ratio
    OCF_Ratio := ocf_ratio
    NPM := npm
    ROA := roa
    ROE := roe
    ROCE := roce
    Debtor_Days := debtor_days
    Debt_Equity := debt_equity
    ICR := icr
    Dupont_NPM := dupont_npm
    Asset_Turnover := asset_turnover
    Fin_Leverage := fin_leverage
    CFO_to_PAT := cfo_to_pat
    Accruals_Ratio := accruals
    Sales_Growth := sales_growth
    Rec_Growth := rec_growth
    Beneish_Flag_DSRI := beneish
    Z_Score := z
    CF_Debt_Cov := cf_debt_cov
    Life_Cycle := get_stage r.CFO r.CFI r.CFF
    Credit_Score := get_score z cfo_to_pat debt_equity current_ratio icr beneish }

/-- Processes the rows in order, threading the previous row of the
frame for the growth columns. -/
def calcRows (prev : Option FinancialRecord) :
    List FinancialRecord → List (FinancialRecord × Metrics)
  | [] => []
  | r :: rs => (r, rowMetrics prev r) :: calcRows (some r) rs

/-- The whole calculation engine on a dataframe, modelled as a list of
rows in frame order: each output row keeps the input row and adds the
derived columns.  An empty frame is returned unchanged. -/
def calculate_metrics (df : List FinancialRecord) : List (FinancialRecord × Metrics) :=
  calcRows none df

/-- Distress-zone banding of the Z''-Score as displayed in `main`
(Distress tab): strict comparisons, checked top-down. -/
def distress_zone (z : ℚ) : String :=
  if z > 2.9 then "SAFE"
  else if z > 1.23 then "GREY"
  else "DISTRESS"

/-- Rationale line appended when the Z''-Score is in the distress zone. -/
def note_distress : String := "Altman Z''-Score indicates potential distress zone."

/-- Rationale line appended on weak cash conversion. -/
def note_cash : String :=
  "Earnings Quality Concern: Operating Cash Flow is significantly lower than Net Profit."

/-- Rationale line appended when the receivables-growth flag is set. -/
def note_beneish : String :=
  "Revenue Recognition Alert: Receivables are growing faster than Revenue."

/-- Rationale line appended on high leverage. -/
def note_leverage : String :=
  "Leverage Alert: Debt-to-Equity ratio exceeds conservative thresholds."

/-- The text shown when no forensic note fired. -/
def no_flags_text : String := "No material forensic red flags detected."

/-- The `forensic_notes` list built inside `generate_formal_memo`, in
the order the source appends them. -/
def forensic_notes (row : Metrics) : List String :=
  (if row.Z_Score < 1.23 then [note_distress] else []) ++
  (if row.CFO_to_PAT < 0.8 then [note_cash] else []) ++
  (if row.Beneish_Flag_DSRI = 1 then [note_beneish] else []) ++
  (if row.Debt_Equity > 2.5 then [note_leverage] else [])

/-- The returned tuple of `generate_formal_memo`. -/
structure Memo where
  verdict : String
  risk_profile : String
  color_hex : String
  rec_text : String
  forensic_text : String
  deriving DecidableEq

/-- Credit memo generator, mirroring `generate_formal_memo`. -/
def generate_formal_memo (row : Metrics) : Memo :=
  let score := row.Credit_Score
  let vrc : String × String × String :=
    if score ≥ 75 then ("APPROVE", "LOW RISK", "#008000")
    else if score ≥ 50 then ("REVIEW", "MEDIUM RISK", "#d97706")
    else ("REJECT", "HIGH RISK", "#dc2626")
  let rec_text :=
    if score ≥ 75 then
      "The borrower demonstrates strong financial health with robust liquidity and solvency metrics. Recommended for approval."
    else if score ≥ 50 then
      "The borrower shows moderate risk. Financials are stable but require stricter covenants regarding leverage or working capital."
    else
      "The borrower exhibits signs of significant financial distress. Lending is not recommended without substantial collateral or guarantees."
  let notes := forensic_notes row
  let ftext :=
    if notes = [] then no_flags_text
    else String.intercalate "\n" (notes.map (fun note => "- " ++ note))
  { verdict := vrc.1
    risk_profile := vrc.2.1
    color_hex := vrc.2.2
    rec_text := rec_text
    forensic_text := ftext }

/-- Scenario A of the spec: the manual-entry defaults of the sidebar
form. -/
def recScenA : FinancialRecord :=
  { Company := "Scenario A", Year := 2025, Revenue := 10000, PAT := 1500, CFO := 1200,
    TotalDebt := 5000, Equity := 8000, CurrentAssets := 6000, CurrentLiabilities := 4000,
    EBIT := 2000, Interest := 500, TotalAssets := 15000 }

/-- A record whose Z''-Score is exactly 2.9: all items 0 except
Equity = -1 and TotalDebt = 3, so X4 = -1/3 and
Z = 3.25 + 1.05 * (-1/3) = 2.9. -/
def recZBoundary : FinancialRecord := { Equity := -1, TotalDebt := 3 }

/-- A record in liquidity stress (Current Ratio = 1/2 < 1) for which
none of the four memo conditions fires. -/
def recLiquidity : FinancialRecord :=
  { TotalAssets := 10, CurrentAssets := 1, CurrentLiabilities := 2, PAT := 1, CFO := 1,
    EBIT := 1, Equity := 10, Revenue := 10 }

/-- First frame row: last observation of company A. -/
def recCompanyA : FinancialRecord :=
  { Company := "A", Year := 2023, Revenue := 1000, Receivables := 100 }

/-- Second frame row: first observation of company B, placed directly
after company A's row in the frame. -/
def recCompanyB : FinancialRecord :=
  { Company := "B", Year := 2023, Revenue := 1100, Receivables := 150 }

/-! ### Helper lemmas -/

theorem replace0_ne_zero (x : ℚ) : replace0 x ≠ 0 := by
  unfold replace0
  split
  · norm_num
  · assumption

set_option maxHeartbeats 1000000 in
theorem raw_score_bounds (z c d cr icr : ℚ) (b : Int) :
    15 ≤ raw_score z c d cr icr b ∧ raw_score z c d cr icr b ≤ 100 := by
  unfold raw_score
  split_ifs <;> norm_num

theorem get_score_eq_max (z c d cr icr : ℚ) (b : Int) :
    get_score z c d cr icr b = max 0 (raw_score z c d cr icr b) := rfl

theorem get_score_bounds (z c d cr icr : ℚ) (b : Int) :
    15 ≤ get_score z c d cr icr b ∧ get_score z c d cr icr b ≤ 100 ∧
    get_score z c d cr icr b = raw_score z c d cr icr b := by
  obtain ⟨h1, h2⟩ := raw_score_bounds z c d cr icr b
  have h0 : (0 : ℚ) ≤ raw_score z c d cr icr b := le_trans (by norm_num) h1
  rw [get_score_eq_max, max_eq_right h0]
  exact ⟨h1, h2, rfl⟩

theorem credit_score_eq (prev : Option FinancialRecord) (r : FinancialRecord) :
    (rowMetrics prev r).Credit_Score
      = get_score (rowMetrics prev r).Z_Score (rowMetrics prev r).CFO_to_PAT
          (rowMetrics prev r).Debt_Equity (rowMetrics prev r).Current_Ratio
          (rowMetrics prev r).ICR (rowMetrics prev r).Beneish_Flag_DSRI := rfl

/-! ### Claims -/

/-- C1: for every row of the frame (any preceding row), the composite
credit score produced by the scorer lies in the closed interval
[0, 100]. -/
theorem C1_composite_score_bounds (prev : Option FinancialRecord) (r : FinancialRecord) :
    0 ≤ (rowMetrics prev r).Credit_Score ∧ (rowMetrics prev r).Credit_Score ≤ 100 := by
  rw [credit_score_eq]
  obtain ⟨h1, h2, _⟩ := get_score_bounds (rowMetrics prev r).Z_Score
    (rowMetrics prev r).CFO_to_PAT (rowMetrics prev r).Debt_Equity
    (rowMetrics prev r).Current_Ratio (rowMetrics prev r).ICR
    (rowMetrics prev r).Beneish_Flag_DSRI
  exact ⟨le_trans (by norm_num) h1, h2⟩

/-- C9: the composite score is always at least 15 (the six deductions
sum to at most 85 from 100), so the floor at 0 never actually changes
the value: the floored score equals the raw score before the floor. -/
theorem C9_floor_never_reached (prev : Option FinancialRecord) (r : FinancialRecord) :
    15 ≤ (rowMetrics prev r).Credit_Score ∧
    (rowMetrics prev r).Credit_Score
      = raw_score (rowMetrics prev r).Z_Score (rowMetrics prev r).CFO_to_PAT
          (rowMetrics prev r).Debt_Equity (rowMetrics prev r).Current_Ratio
          (rowMetrics prev r).ICR (rowMetrics prev r).Beneish_Flag_DSRI := by
  rw [credit_score_eq]
  obtain ⟨h1, _, h3⟩ := get_score_bounds (rowMetrics prev r).Z_Score
    (rowMetrics prev r).CFO_to_PAT (rowMetrics prev r).Debt_Equity
    (rowMetrics prev r).Current_Ratio (rowMetrics prev r).ICR
    (rowMetrics prev r).Beneish_Flag_DSRI
  exact ⟨h1, h3⟩

/-- C8: holding every other scorer input fixed, a distress index below
1.23 never yields a higher composite score than a distress index of at
least 2.9. -/
theorem C8_distress_monotonicity (z1 z2 c d cr icr : ℚ) (b : Int)
    (h1 : z1 < 1.23) (h2 : 2.9 ≤ z2) :
    get_score z1 c d cr icr b ≤ get_score z2 c d cr icr b := by
  rw [get_score_eq_max, get_score_eq_max]
  refine max_le_max le_rfl ?_
  simp only [raw_score]
  rw [if_pos h1, if_neg (show ¬ z2 < 1.23 by linarith), if_neg (show ¬ z2 < 2.9 by linarith)]
  split_ifs <;> norm_num

/-- Witness for C8 at the concrete inputs z1 = 1 and z2 = 3. -/
theorem C8_distress_monotonicity_witness :
    (1 : ℚ) < 1.23 ∧ (2.9 : ℚ) ≤ 3 ∧
    get_score 1 1 1 1 1 0 ≤ get_score 3 1 1 1 1 0 :=
  ⟨by norm_num, by norm_num,
    C8_distress_monotonicity 1 3 1 1 1 1 0 (by norm_num) (by norm_num)⟩

/-- C5: the life-cycle classifier is total over the five labels,
first match wins on the signs of (CFO, CFI, CFF), a zero value falls
through every strict comparison (a zero CFO always yields Transition),
and the three scenario sign patterns classify as stated. -/
theorem C5_life_cycle_classifier :
    get_stage (-100) (-50) 200 = "Introduction" ∧
    get_stage 500 (-200) (-100) = "Mature" ∧
    get_stage 0 0 0 = "Transition" ∧
    (∀ cfo cfi cff : ℚ,
      get_stage cfo cfi cff = "Introduction" ∨ get_stage cfo cfi cff = "Growth" ∨
      get_stage cfo cfi cff = "Mature" ∨ get_stage cfo cfi cff = "Decline/Stress" ∨
      get_stage cfo cfi cff = "Transition") ∧
    (∀ cfi cff : ℚ, get_stage 0 cfi cff = "Transition") := by
  refine ⟨by norm_num [get_stage], by norm_num [get_stage], by norm_num [get_stage], ?_, ?_⟩
  · intro cfo cfi cff
    unfold get_stage
    split_ifs <;> simp
  · intro cfi cff
    simp [get_stage]

/-- C7: on the Scenario A record the derived ratios are exactly
Current Ratio = 3/2, Debt-to-Equity = 5/8, Interest Coverage = 4 and
CFO/PAT = 4/5; the weak-cash-realization condition CFO/PAT < 0.8 does
not hold, and indeed no deduction fires at all: the composite score is
100. -/
theorem C7_scenario_A :
    (rowMetrics none recScenA).Current_Ratio = 3 / 2 ∧
    (rowMetrics none recScenA).Debt_Equity = 5 / 8 ∧
    (rowMetrics none recScenA).ICR = 4 ∧
    (rowMetrics none recScenA).CFO_to_PAT = 4 / 5 ∧
    ¬ ((rowMetrics none recScenA).CFO_to_PAT < 0.8) ∧
    (rowMetrics none recScenA).Credit_Score = 100 := by
  refine ⟨?_, ?_, ?_, ?_, ?_, ?_⟩ <;>
    norm_num [rowMetrics, recScenA, get_score, get_stage, pct_change, replace0]

/-- C4 counterexample: a record whose distress index is exactly 2.9 is
banded GREY, not SAFE, and an index of exactly 1.23 is banded DISTRESS,
not GREY, because the display logic compares with strict inequalities. -/
theorem C4_boundary_counterexample :
    (rowMetrics none recZBoundary).Z_Score = 2.9 ∧
    distress_zone ((rowMetrics none recZBoundary).Z_Score) = "GREY" ∧
    distress_zone ((rowMetrics none recZBoundary).Z_Score) ≠ "SAFE" ∧
    distress_zone 1.23 = "DISTRESS" ∧
    distress_zone 1.23 ≠ "GREY" := by
  have hz : (rowMetrics none recZBoundary).Z_Score = 2.9 := by
    norm_num [rowMetrics, recZBoundary, pct_change, replace0]
  rw [hz]
  refine ⟨rfl, ?_, ?_, ?_, ?_⟩ <;> norm_num [distress_zone] <;> decide

/-- C4 amended: the zone banding uses strict thresholds on both ends:
an index of at most 1.23 is DISTRESS, an index in (1.23, 2.9] is GREY,
and an index strictly above 2.9 is SAFE; in particular exactly 1.23 is
DISTRESS and exactly 2.9 is GREY. -/
theorem C4_bands_amended (z : ℚ) :
    (z ≤ 1.23 → distress_zone z = "DISTRESS") ∧
    (1.23 < z → z ≤ 2.9 → distress_zone z = "GREY") ∧
    (2.9 < z → distress_zone z = "SAFE") := by
  unfold distress_zone
  refine ⟨?_, ?_, ?_⟩
  · intro h
    rw [if_neg (show ¬ z > 2.9 by simp; linarith), if_neg (show ¬ z > 1.23 by simp; linarith)]
  · intro h1 h2
    rw [if_neg (show ¬ z > 2.9 by simp; linarith), if_pos (show z > 1.23 from h1)]
  · intro h
    rw [if_pos (show z > 2.9 from h)]

/-- Witness for C4 amended at the three concrete indices 1.23, 2.9
and 3. -/
theorem C4_bands_amended_witness :
    distress_zone 1.23 = "DISTRESS" ∧ distress_zone 2.9 = "GREY" ∧ distress_zone 3 = "SAFE" :=
  ⟨(C4_bands_amended 1.23).1 (by norm_num),
   (C4_bands_amended 2.9).2.1 (by norm_num) (by norm_num),
   (C4_bands_amended 3).2.2 (by norm_num)⟩

theorem div_mul_scale_cancel (a d k : ℚ) (hd : d ≠ 0) : a / d * k * d = a * k := by
  rw [mul_right_comm, div_mul_cancel₀ a hd]

/-- C2: every ratio of the ratio deriver and the distress estimator is
a genuine, defined division: each divisor, after the replace-0-by-1
substitution, is nonzero, and each stored ratio exactly satisfies its
defining division equation — for every record, with no restriction on
CurrentLiabilities, Equity, TotalDebt, Revenue, PAT or TotalAssets
being zero, and with no other error path. -/
theorem C2_ratios_defined (prev : Option FinancialRecord) (r : FinancialRecord) :
    replace0 r.CurrentLiabilities ≠ 0 ∧ replace0 r.Revenue ≠ 0 ∧
    replace0 r.TotalAssets ≠ 0 ∧ replace0 r.Equity ≠ 0 ∧
    replace0 (r.TotalDebt + r.Equity) ≠ 0 ∧ replace0 r.Interest ≠ 0 ∧
    replace0 r.PAT ≠ 0 ∧ replace0 r.TotalDebt ≠ 0 ∧
    (rowMetrics prev r).Current_Ratio * replace0 r.CurrentLiabilities = r.CurrentAssets ∧
    (rowMetrics prev r).OCF_Ratio * replace0 r.CurrentLiabilities = r.CFO ∧
    (rowMetrics prev r).NPM * replace0 r.Revenue = r.PAT * 100 ∧
    (rowMetrics prev r).ROA * replace0 r.TotalAssets = r.PAT * 100 ∧
    (rowMetrics prev r).ROE * replace0 r.Equity = r.PAT * 100 ∧
    (rowMetrics prev r).ROCE * replace0 (r.TotalDebt + r.Equity) = r.EBIT * 100 ∧
    (rowMetrics prev r).Debtor_Days * replace0 r.Revenue = r.Receivables * 365 ∧
    (rowMetrics prev r).Debt_Equity * replace0 r.Equity = r.TotalDebt ∧
    (rowMetrics prev r).ICR * replace0 r.Interest = r.EBIT ∧
    (rowMetrics prev r).Dupont_NPM * replace0 r.Revenue = r.PAT ∧
    (rowMetrics prev r).Asset_Turnover * replace0 r.TotalAssets = r.Revenue ∧
    (rowMetrics prev r).Fin_Leverage * replace0 r.Equity = r.TotalAssets ∧
    (rowMetrics prev r).CFO_to_PAT * replace0 r.PAT = r.CFO ∧
    (rowMetrics prev r).Accruals_Ratio * replace0 r.TotalAssets = r.PAT - r.CFO ∧
    (rowMetrics prev r).CF_Debt_Cov * replace0 r.TotalDebt = r.CFO ∧
    (rowMetrics prev r).Z_Score
      = 3.25 + 6.56 * ((r.CurrentAssets - r.CurrentLiabilities) / replace0 r.TotalAssets)
        + 3.26 * (r.PAT / replace0 r.TotalAssets)
        + 6.72 * (r.EBIT / replace0 r.TotalAssets)
        + 1.05 * (r.Equity / replace0 r.TotalDebt) := by
  have hCL := replace0_ne_zero r.CurrentLiabilities
  have hRev := replace0_ne_zero r.Revenue
  have hTA := replace0_ne_zero r.TotalAssets
  have hEq := replace0_ne_zero r.Equity
  have hDE := replace0_ne_zero (r.TotalDebt + r.Equity)
  have hInt := replace0_ne_zero r.Interest
  have hPAT := replace0_ne_zero r.PAT
  have hTD := replace0_ne_zero r.TotalDebt
  refine ⟨hCL, hRev, hTA, hEq, hDE, hInt, hPAT, hTD,
    div_mul_cancel₀ _ hCL, div_mul_cancel₀ _ hCL,
    div_mul_scale_cancel _ _ _ hRev, div_mul_scale_cancel _ _ _ hTA,
    div_mul_scale_cancel _ _ _ hEq, div_mul_scale_cancel _ _ _ hDE,
    div_mul_scale_cancel _ _ _ hRev,
    div_mul_cancel₀ _ hEq, div_mul_cancel₀ _ hInt, div_mul_cancel₀ _ hRev,
    div_mul_cancel₀ _ hTA, div_mul_cancel₀ _ hEq, div_mul_cancel₀ _ hPAT,
    div_mul_cancel₀ _ hTA, div_mul_cancel₀ _ hTD, rfl⟩

/-- C3 (code evidence): processing the two-row frame
[company A; company B] — company B's single, first observation placed
after company A's row — the growth columns of company B's row are
computed against company A's row: Sales_Growth = 1/10 and
Rec_Growth = 1/2 instead of 0, and the manipulation flag fires. -/
theorem C3_cross_entity_growth :
    recCompanyA.Company ≠ recCompanyB.Company ∧
    (calculate_metrics [recCompanyA, recCompanyB]).map (fun p => p.2.Sales_Growth)
      = [0, 1 / 10] ∧
    (calculate_metrics [recCompanyA, recCompanyB]).map (fun p => p.2.Rec_Growth)
      = [0, 1 / 2] ∧
    (calculate_metrics [recCompanyA, recCompanyB]).map (fun p => p.2.Beneish_Flag_DSRI)
      = [0, 1] := by
  refine ⟨by decide, ?_, ?_, ?_⟩ <;>
    norm_num [calculate_metrics, calcRows, rowMetrics, pct_change, replace0,
      recCompanyA, recCompanyB, get_stage, get_score]

theorem calcRows_map_fst (prev : Option FinancialRecord) (df : List FinancialRecord) :
    (calcRows prev df).map Prod.fst = df := by
  induction df generalizing prev with
  | nil => rfl
  | cons r rs ih => simp [calcRows, ih]

/-- C10: the calculation engine only adds derived columns: mapping each
output row back to its input component returns the input frame exactly
(every original field of every record unchanged, in order), and the
empty frame is returned unchanged. -/
theorem C10_frame_property (df : List FinancialRecord) :
    (calculate_metrics df).map Prod.fst = df ∧
    calculate_metrics ([] : List FinancialRecord) = [] :=
  ⟨calcRows_map_fst none df, rfl⟩

theorem memo_forensic_text_eq (m : Metrics) :
    (generate_formal_memo m).forensic_text
      = if forensic_notes m = [] then no_flags_text
        else String.intercalate "\n" ((forensic_notes m).map (fun note => "- " ++ note)) := rfl

/-- C6 counterexample: on a row in liquidity stress (Current Ratio
1/2 < 1) where no other condition fires, the memo emits no liquidity
rationale line at all — it emits the standard no-red-flags line — so
the composer does not emit one line per triggered condition among the
five claimed conditions. -/
theorem C6_liquidity_counterexample :
    (rowMetrics none recLiquidity).Current_Ratio < 1 ∧
    forensic_notes (rowMetrics none recLiquidity) = [] ∧
    (generate_formal_memo (rowMetrics none recLiquidity)).forensic_text
      = "No material forensic red flags detected." := by
  refine ⟨?_, ?_, ?_⟩ <;>
    norm_num [rowMetrics, recLiquidity, replace0, pct_change, get_stage, get_score,
      forensic_notes, generate_formal_memo, no_flags_text]

/-- C6 amended: the memo emits exactly one rationale line per
triggered condition among four conditions — distress zone (Z < 1.23),
weak cash conversion (CFO/PAT < 0.8), manipulation flag, and high
leverage with threshold 2.5 — in that fixed order (the note list is a
sublist of the canonical order, liquidity stress contributes no line),
and emits the standard no-red-flags line when none of the four fire. -/
theorem C6_memo_lines_amended (m : Metrics) :
    (forensic_notes m).length
        = ((if m.Z_Score < 1.23 then 1 else 0) + (if m.CFO_to_PAT < 0.8 then 1 else 0)
            + (if m.Beneish_Flag_DSRI = 1 then 1 else 0) + (if m.Debt_Equity > 2.5 then 1 else 0)) ∧
    (note_distress ∈ forensic_notes m ↔ m.Z_Score < 1.23) ∧
    (note_cash ∈ forensic_notes m ↔ m.CFO_to_PAT < 0.8) ∧
    (note_beneish ∈ forensic_notes m ↔ m.Beneish_Flag_DSRI = 1) ∧
    (note_leverage ∈ forensic_notes m ↔ m.Debt_Equity > 2.5) ∧
    List.Sublist (forensic_notes m) [note_distress, note_cash, note_beneish, note_leverage] ∧
    (forensic_notes m = [] →
      (generate_formal_memo m).forensic_text = "No material forensic red flags detected.") := by
  have himp : forensic_notes m = [] →
      (generate_formal_memo m).forensic_text = "No material forensic red flags detected." := by
    intro h
    rw [memo_forensic_text_eq, if_pos h]
    rfl
  refine ⟨?_, ?_, ?_, ?_, ?_, ?_, himp⟩
  · unfold forensic_notes; split_ifs <;> simp_all
  · unfold forensic_notes; split_ifs <;>
      simp_all [note_distress, note_cash, note_beneish, note_leverage]
  · unfold forensic_notes; split_ifs <;>
      simp_all [note_distress, note_cash, note_beneish, note_leverage]
  · unfold forensic_notes; split_ifs <;>
      simp_all [note_distress, note_cash, note_beneish, note_leverage]
  · unfold forensic_notes; split_ifs <;>
      simp_all [note_distress, note_cash, note_beneish, note_leverage]
  · unfold forensic_notes; split_ifs <;> decide

/-- Witness for C6 amended: on the concrete liquidity-stress row the
note list is empty and, by the amended theorem, the memo emits the
standard no-red-flags line. -/
theorem C6_memo_lines_amended_witness :
    forensic_notes (rowMetrics none recLiquidity) = [] ∧
    (generate_formal_memo (rowMetrics none recLiquidity)).forensic_text
      = "No material forensic red flags detected." := by
  have h : forensic_notes (rowMetrics none recLiquidity) = [] := by
    norm_num [rowMetrics, recLiquidity, replace0, pct_change, get_stage, get_score,
      forensic_notes]
  exact ⟨h, ((C6_memo_lines_amended (rowMetrics none recLiquidity)).2.2.2.2.2.2) h⟩
